import Mathlib

/-!
Verification of the PDF-ingestion / permission-aware search samples
(`ai_search/python`).  The definitions below are a shallow embedding of the
Python sources:

* `generate_security_filter` — `EntraIDAuthManager.generate_security_filter`
  (`03_Upload_PDF_Permissions/entraid_auth.py`, lines 266-289);
* `generate_single_embedding`, `execute_embedding_tasks`,
  `generate_embeddings_for_chunks` — the retry loop and batch collation of
  `02_Upload_PDF_Images/embedding_generator.py`;
* `get_user_groups`, `get_user_accessible_groups`, `validate_user_access` —
  the cached group resolution of `03_Upload_PDF_Permissions/entraid_auth.py`;
* `prepare_documents`, `upload_batch`, `upload_documents` —
  `03_Upload_PDF_Permissions/search_uploader.py`;
* `text_search`, `vector_search`, `hybrid_search`, `search_with_permissions`
  — `03_Upload_PDF_Permissions/secure_search.py`.

External I/O (HTTP responses of the embedding endpoint, the Graph API and the
search index) is passed in as explicit data; time is a natural number of
seconds; embedding components are integers (the float-only NaN/Infinity check
of `_validate_embedding` is identically false on integers and is noted where
it is elided).
-/

/-! ### Security filter builder (`entraid_auth.generate_security_filter`) -/

/-- One OData atom `document_groups/any(g: g eq '<value>')` as the Python
code interpolates it. -/
def renderFilterAtom (value : String) : String :=
  "document_groups/any(g: g eq '" ++ value ++ "')"

/-- `EntraIDAuthManager.generate_security_filter`, line for line: empty input
returns the sentinel atom, otherwise the per-group atoms are joined with
`" or "`. -/
def generate_security_filter (user_accessible_groups : List String) : String :=
  if user_accessible_groups.isEmpty then
    renderFilterAtom "no-access"
  else
    String.intercalate " or " (user_accessible_groups.map renderFilterAtom)

/-- The values carried by the atoms of the built filter: the sentinel
`"no-access"` when the input is empty, the input groups otherwise. -/
def securityFilterAtoms (user_accessible_groups : List String) : List String :=
  if user_accessible_groups.isEmpty then ["no-access"]
  else user_accessible_groups

/-- OData semantics of a disjunction of `document_groups/any(g: g eq v)`
atoms over a document whose `document_groups` field is `docGroups`: the
filter matches iff some atom value occurs in the document's group list. -/
def filterMatches (atoms : List String) (docGroups : List String) : Bool :=
  atoms.any (fun v => docGroups.contains v)

/-! ### Embedding generator (`embedding_generator.py`) -/

/-- `EmbeddingResult` dataclass (`embedding_generator.py`, lines 24-31).
Embedding components are modelled as integers. -/
structure EmbeddingResult where
  chunk_id : String
  embedding : List Int
  success : Bool
  content_type : String := "text"
  error : Option String := none
deriving Repr, DecidableEq

/-- One observable answer to a single HTTP POST of the embedding endpoint:
an HTTP status with the JSON `data` array (used only when the status is 200,
each element being one embedding vector) and the body text (used by the
non-200 branches), or an `aiohttp.ClientError`, or any other exception
raised during the attempt. -/
inductive HttpResp where
  | http (code : Nat) (data : List (List Int)) (text : String)
  | clientError (msg : String)
  | exn (msg : String)
deriving Repr, DecidableEq

/-- `EmbeddingGenerator._validate_embedding`: non-empty and of the configured
dimensionality.  The source additionally rejects NaN/Infinity components;
on integer components that test (`x != x or abs(x) == inf`) is identically
false, so it is omitted. -/
def validate_embedding (vector_dimensions : Nat) (embedding : List Int) : Bool :=
  if embedding.isEmpty then false
  else if embedding.length ≠ vector_dimensions then false
  else true

/-- Trace of one `_generate_single_embedding` call: the returned result, the
number of HTTP requests issued, and the `asyncio.sleep` delays (seconds)
performed between attempts, in order. -/
structure SingleCallTrace where
  result : EmbeddingResult
  attempts : Nat
  delays : List Nat
deriving Repr, DecidableEq

/-- The retry loop body of `_generate_single_embedding` (lines 188-320).
`responses i` is the outcome of the HTTP request made on loop iteration
`i`; `attempt` is the Python loop variable and `fuel` the number of
iterations left (`max_retries - attempt`), so reaching `fuel = 0` is the
loop falling through to the `"Unknown error"` return at line 314.

Branches, as in the source: a 200 whose first `data` entry validates
returns success; a 200 with missing/invalid data logs and falls to the next
iteration with no sleep; a 429 sleeps `min(retry_delay * 2^attempt, 60)` and
retries, or returns the `"Rate limit exceeded"` failure on the last attempt;
any other status, a client error or an unexpected exception sleeps the
uncapped `retry_delay * 2^attempt` and retries, or returns the
corresponding failure on the last attempt. -/
def runAttempts (vector_dimensions max_retries retry_delay : Nat)
    (item_id content_type : String) (responses : Nat → HttpResp) :
    Nat → Nat → SingleCallTrace
  | _, 0 =>
    { result := { chunk_id := item_id, embedding := [], success := false,
                  content_type := content_type, error := some "Unknown error" }
      attempts := 0, delays := [] }
  | attempt, fuel + 1 =>
    match responses attempt with
    | .http code data text =>
      if code = 200 then
        match data.head? with
        | some embedding =>
          if validate_embedding vector_dimensions embedding then
            { result := { chunk_id := item_id, embedding := embedding,
                          success := true, content_type := content_type }
              attempts := 1, delays := [] }
          else
            let rest := runAttempts vector_dimensions max_retries retry_delay
              item_id content_type responses (attempt + 1) fuel
            { rest with attempts := rest.attempts + 1 }
        | none =>
          let rest := runAttempts vector_dimensions max_retries retry_delay
            item_id content_type responses (attempt + 1) fuel
          { rest with attempts := rest.attempts + 1 }
      else if code = 429 then
        if attempt < max_retries - 1 then
          let delay := min (retry_delay * 2 ^ attempt) 60
          let rest := runAttempts vector_dimensions max_retries retry_delay
            item_id content_type responses (attempt + 1) fuel
          { rest with attempts := rest.attempts + 1, delays := delay :: rest.delays }
        else
          { result := { chunk_id := item_id, embedding := [], success := false,
                        content_type := content_type,
                        error := some ("Rate limit exceeded: " ++ text) }
            attempts := 1, delays := [] }
      else
        if attempt < max_retries - 1 then
          let delay := retry_delay * 2 ^ attempt
          let rest := runAttempts vector_dimensions max_retries retry_delay
            item_id content_type responses (attempt + 1) fuel
          { rest with attempts := rest.attempts + 1, delays := delay :: rest.delays }
        else
          { result := { chunk_id := item_id, embedding := [], success := false,
                        content_type := content_type,
                        error := some ("HTTP " ++ toString code ++ ": " ++ text) }
            attempts := 1, delays := [] }
    | .clientError msg =>
      if attempt < max_retries - 1 then
        let delay := retry_delay * 2 ^ attempt
        let rest := runAttempts vector_dimensions max_retries retry_delay
          item_id content_type responses (attempt + 1) fuel
        { rest with attempts := rest.attempts + 1, delays := delay :: rest.delays }
      else
        { result := { chunk_id := item_id, embedding := [], success := false,
                      content_type := content_type,
                      error := some ("HTTP client error: " ++ msg) }
          attempts := 1, delays := [] }
    | .exn msg =>
      if attempt < max_retries - 1 then
        let delay := retry_delay * 2 ^ attempt
        let rest := runAttempts vector_dimensions max_retries retry_delay
          item_id content_type responses (attempt + 1) fuel
        { rest with attempts := rest.attempts + 1, delays := delay :: rest.delays }
      else
        { result := { chunk_id := item_id, embedding := [], success := false,
                      content_type := content_type,
                      error := some ("Unexpected error: " ++ msg) }
          attempts := 1, delays := [] }

/-- `_generate_single_embedding` with the constructor's configuration
`max_retries = 3`, `retry_delay = 1.0` second (lines 53-54): the loop
`for attempt in range(self.max_retries)` starting at attempt 0. -/
def generate_single_embedding (vector_dimensions : Nat)
    (item_id content_type : String) (responses : Nat → HttpResp) :
    SingleCallTrace :=
  runAttempts vector_dimensions 3 1 item_id content_type responses 0 3

/-- What `asyncio.gather(*tasks, return_exceptions=True)` hands back for one
task: either the task's returned `EmbeddingResult`, or the exception it
raised. -/
inductive TaskOutcome where
  | result (r : EmbeddingResult)
  | exn (msg : String)
deriving Repr, DecidableEq

/-- The id `_execute_embedding_tasks` reports for slot `i`: the source
object's id for an exception slot (line 145), the result's own `chunk_id`
otherwise. -/
def taskOutcomeId (p : String × TaskOutcome) : String :=
  match p.2 with
  | .result r => r.chunk_id
  | .exn _ => p.1

/-- `EmbeddingGenerator._execute_embedding_tasks` (lines 125-163) over
index-aligned pairs of source-object id and gathered task outcome: an
exception is replaced by a failure `EmbeddingResult` carrying the source id
(note the replacement leaves `content_type` at its `"text"` default, as the
Python constructor call at lines 148-153 does); a returned result is kept.
Also returns the `success_count` tallied in the loop. -/
def execute_embedding_tasks (pairs : List (String × TaskOutcome)) :
    List EmbeddingResult × Nat :=
  match pairs with
  | [] => ([], 0)
  | p :: rest =>
    let tail := execute_embedding_tasks rest
    match p.2 with
    | .exn msg =>
      ({ chunk_id := p.1, embedding := [], success := false,
         error := some msg } :: tail.1, tail.2)
    | .result r =>
      (r :: tail.1, if r.success then tail.2 + 1 else tail.2)

/-- `EmbeddingGenerator.generate_embeddings_for_chunks` (lines 70-93): one
`_generate_single_embedding` task per chunk (content type `"text"`), gathered
by `_execute_embedding_tasks`.  A chunk is its id paired with its content;
`responses id` is the HTTP response stream seen by that chunk's task.
`_generate_single_embedding` is total (every exception is caught inside it),
so every gathered outcome is a returned result. -/
def generate_embeddings_for_chunks (vector_dimensions : Nat)
    (chunks : List (String × String)) (responses : String → Nat → HttpResp) :
    List EmbeddingResult :=
  if chunks.isEmpty then []
  else
    (execute_embedding_tasks (chunks.map (fun chunk =>
      (chunk.1, TaskOutcome.result
        (generate_single_embedding vector_dimensions chunk.1 "text"
          (responses chunk.1)).result)))).1

/-! ### Group resolution and cache (`entraid_auth.py`) -/

/-- One entry of `EntraIDAuthManager._group_cache` for a `user_groups_` key:
the group list and the `datetime.now()` recorded at fetch time (seconds). -/
structure CacheEntry where
  groups : List String
  timestamp : Nat
deriving Repr, DecidableEq

/-- `self._group_cache` as an association list from cache key to entry. -/
abbrev GroupCache := List (String × CacheEntry)

/-- Dictionary lookup `self._group_cache[cache_key]` guarded by
`cache_key in self._group_cache`. -/
def cacheLookup (cache : GroupCache) (key : String) : Option CacheEntry :=
  (cache.find? (fun p => p.1 = key)).map (fun p => p.2)

/-- Dictionary assignment `self._group_cache[cache_key] = ...`: replaces the
entry for the key, or appends it. -/
def cacheInsert (cache : GroupCache) (key : String) (entry : CacheEntry) :
    GroupCache :=
  match cache with
  | [] => [(key, entry)]
  | p :: rest =>
    if p.1 = key then (key, entry) :: rest
    else p :: cacheInsert rest key entry

/-- The Microsoft Graph `memberOf` interaction for one lookup (token
acquisition plus the GET), abstracted to its observable outcome: the group
ids extracted from a 200 response, or the failing status code and body. -/
inductive GraphResp where
  | ok (groups : List String)
  | err (code : Nat) (text : String)
deriving Repr, DecidableEq

/-- `self._cache_expiry = timedelta(minutes=30)`, in seconds. -/
def cache_expiry : Nat := 30 * 60

/-- Observable outcome of one `get_user_groups` call: the returned group
list or the raised exception's message, the cache afterwards, and how many
network lookups were issued. -/
structure GroupsCall where
  result : Except String (List String)
  cache : GroupCache
  lookups : Nat
deriving Repr

/-- `EntraIDAuthManager.get_user_groups` (lines 75-132): return the cached
groups when the `user_groups_<user_id>` entry exists and
`now - timestamp < cache_expiry`; otherwise issue one Graph lookup — on 200
cache the fresh groups with the current time and return them, on any other
status raise `Failed to get user groups: <code> - <text>` (re-raised by the
outer handler).  Time is `Nat`, so a cache timestamp in the future reads as
age 0, within expiry, as the negative `timedelta` would in Python. -/
def get_user_groups (cache : GroupCache) (user_id : String) (now : Nat)
    (api : GraphResp) : GroupsCall :=
  let cache_key := "user_groups_" ++ user_id
  let fetched : GroupsCall :=
    match api with
    | .ok groups =>
      { result := .ok groups
        cache := cacheInsert cache cache_key { groups := groups, timestamp := now }
        lookups := 1 }
    | .err code text =>
      { result := .error ("Failed to get user groups: " ++ toString code ++ " - " ++ text)
        cache := cache
        lookups := 1 }
  match cacheLookup cache cache_key with
  | some cached_data =>
    if now - cached_data.timestamp < cache_expiry then
      { result := .ok cached_data.groups, cache := cache, lookups := 0 }
    else fetched
  | none => fetched

/-- `EntraIDAuthManager.get_user_accessible_groups` (lines 174-207):
intersect the user's groups with the configured document access groups
(`list(set(user_groups).intersection(set(document_groups)))`, modelled as
deduplicated filtering); any exception from the lookup is caught and the
empty list returned (line 205-207).  The call's cache and lookup count are
returned alongside. -/
def get_user_accessible_groups (cache : GroupCache) (user_id : String)
    (now : Nat) (api : GraphResp) (document_access_groups : List String) :
    List String × GroupCache × Nat :=
  let call := get_user_groups cache user_id now api
  match call.result with
  | .ok user_groups =>
    (user_groups.dedup.filter (fun g => document_access_groups.contains g),
     call.cache, call.lookups)
  | .error _ => ([], call.cache, call.lookups)

/-- `EntraIDAuthManager.validate_user_access` (lines 134-172): empty
`required_groups` returns `True` before any lookup; otherwise access is
granted iff the user's groups intersect the required ones, and any exception
is caught and turned into `False` (deny on error).  Returns the decision and
the number of network lookups issued. -/
def validate_user_access (cache : GroupCache) (user_id : String) (now : Nat)
    (api : GraphResp) (required_groups : List String) : Bool × Nat :=
  if required_groups.isEmpty then (true, 0)
  else
    let call := get_user_groups cache user_id now api
    match call.result with
    | .ok user_groups =>
      (user_groups.any (fun g => required_groups.contains g), call.lookups)
    | .error _ => (false, call.lookups)

/-! ### Index uploader (`search_uploader.py`) -/

/-- `DocumentChunk` as consumed by `SearchUploader.upload_documents`.
`created_at` is kept as the already-formatted timestamp string (the
ISO-formatting branch at lines 158-162 is presentation only and not touched
by any claim). -/
structure DocumentChunk where
  id : String
  title : String
  content : String
  headline : String
  file_name : String
  page_number : Nat
  chunk_index : Nat
  created_at : String
  token_count : Nat
  document_groups : List String
  default_group : String
  permission_level : String
deriving Repr, DecidableEq

/-- The document dictionary built at lines 164-179 for upload to the index. -/
structure IndexDocument where
  id : String
  title : String
  content : String
  headline : String
  embedding : List Int
  file_name : String
  page_number : Nat
  chunk_index : Nat
  created_at : String
  token_count : Nat
  document_groups : List String
  default_group : String
  permission_level : String
deriving Repr, DecidableEq

/-- `embedding_map = {result.chunk_id: result for result in embeddings}`
followed by `.get(chunk.id)`: on duplicate ids the later entry wins, hence
the lookup searches the reversed list. -/
def embedding_map_get (embeddings : List EmbeddingResult) (id : String) :
    Option EmbeddingResult :=
  embeddings.reverse.find? (fun r => r.chunk_id = id)

/-- The document dictionary for one chunk and its successful embedding
result (lines 164-179). -/
def mkIndexDocument (chunk : DocumentChunk) (er : EmbeddingResult) :
    IndexDocument :=
  { id := chunk.id, title := chunk.title, content := chunk.content,
    headline := chunk.headline, embedding := er.embedding,
    file_name := chunk.file_name, page_number := chunk.page_number,
    chunk_index := chunk.chunk_index, created_at := chunk.created_at,
    token_count := chunk.token_count,
    document_groups := chunk.document_groups,
    default_group := chunk.default_group,
    permission_level := chunk.permission_level }

/-- The preparation loop of `upload_documents` (lines 145-181): a chunk
whose embedding result is missing or unsuccessful is skipped and counted in
`skipped_count`; the others become index documents in chunk order.  Returns
`(documents, skipped_count)`. -/
def prepare_documents (chunks : List DocumentChunk)
    (embeddings : List EmbeddingResult) : List IndexDocument × Nat :=
  match chunks with
  | [] => ([], 0)
  | chunk :: rest =>
    let tail := prepare_documents rest embeddings
    match embedding_map_get embeddings chunk.id with
    | some er =>
      if er.success then (mkIndexDocument chunk er :: tail.1, tail.2)
      else (tail.1, tail.2 + 1)
    | none => (tail.1, tail.2 + 1)

/-- The `{"success": .., "failed": .., "errors": [..]}` record that
`upload_documents` and `_upload_batch` return. -/
structure UploadResults where
  success : Nat
  failed : Nat
  errors : List String
deriving Repr, DecidableEq

/-- One per-document indexing result as returned by
`search_client.upload_documents`: the document key, whether it succeeded,
and the service's error message. -/
structure IndexingResult where
  key : String
  succeeded : Bool
  error_message : String
deriving Repr, DecidableEq

/-- Outcome of one `search_client.upload_documents` network call: the
per-document results, or the exception raised for the whole batch. -/
abbrev UploadApi := List IndexDocument → Except String (List IndexingResult)

/-- `SearchUploader._upload_batch` (lines 207-262): tally per-document
results of the service call into success/failed counts and
`Document <key>: <message>` error strings; a batch-level exception marks
every document of the batch failed with a single `Batch <n>: <error>`
entry. -/
def upload_batch (api : UploadApi) (documents : List IndexDocument)
    (batch_number : Nat) : UploadResults :=
  match api documents with
  | .ok itemResults =>
    itemResults.foldl
      (fun acc doc_result =>
        if doc_result.succeeded then { acc with success := acc.success + 1 }
        else
          { acc with
            failed := acc.failed + 1
            errors := acc.errors ++
              ["Document " ++ doc_result.key ++ ": " ++ doc_result.error_message] })
      { success := 0, failed := 0, errors := [] }
  | .error e =>
    { success := 0, failed := documents.length,
      errors := ["Batch " ++ toString batch_number ++ ": " ++ e] }

/-- `for i in range(0, len(documents), batch_size)`: the successive slices
`documents[i:i+batch_size]`. -/
def chunksOf (batch_size : Nat) (l : List IndexDocument) :
    List (List IndexDocument) :=
  if h : l.isEmpty ∨ batch_size = 0 then []
  else
    l.take batch_size :: chunksOf batch_size (l.drop batch_size)
termination_by l.length
decreasing_by
  simp only [not_or, List.isEmpty_iff] at h
  simp only [List.length_drop]
  exact Nat.sub_lt (List.length_pos.mpr h.1) (Nat.pos_of_ne_zero h.2)

/-- `SearchUploader.upload_documents` (lines 122-205).  Empty `chunks` or
`embeddings` short-circuits with zero counts; if every chunk was skipped the
whole input is reported failed with the `"No valid documents"` error;
otherwise the prepared documents are uploaded in batches of 100 (batch `n`
numbered from 1) and the batch records are summed.  Returns the result
record together with the `skipped_count` the source logs at line 199-203. -/
def upload_documents (api : UploadApi) (chunks : List DocumentChunk)
    (embeddings : List EmbeddingResult) : UploadResults × Nat :=
  if chunks.isEmpty ∨ embeddings.isEmpty then
    ({ success := 0, failed := 0, errors := [] }, 0)
  else
    let prepared := prepare_documents chunks embeddings
    if prepared.1.isEmpty then
      ({ success := 0, failed := chunks.length, errors := ["No valid documents"] },
       prepared.2)
    else
      let batches := chunksOf 100 prepared.1
      (((List.range batches.length).zip batches).foldl
        (fun acc batch =>
          let batch_result := upload_batch api batch.2 (batch.1 + 1)
          { success := acc.success + batch_result.success,
            failed := acc.failed + batch_result.failed,
            errors := acc.errors ++ batch_result.errors })
        { success := 0, failed := 0, errors := [] },
       prepared.2)

/-! ### Secure search gateway (`secure_search.py`) -/

/-- The `{"results": .., "count": .., "facets": ..}` dictionary that every
search path of `SecureSearchClient` returns, with the optional `message`
(line 83) and `error` (line 116) keys.  Result items and facets are
abstracted to opaque strings. -/
structure SearchResponse where
  results : List String
  count : Nat
  facets : List String
  message : Option String := none
  error : Option String := none
deriving Repr, DecidableEq

/-- The three query shapes `SecureSearchClient` sends to
`search_client.search`. -/
inductive QueryKind where
  | text
  | vector
  | hybrid
deriving Repr, DecidableEq

/-- The search index, abstracted to the processed outcome of issuing one
query of the given kind with the given filter string: the structured
response, or the exception the call raised. -/
abbrev SearchBackend := QueryKind → String → Except String SearchResponse

/-- Python `str(embedding_result.error)` where `error: Optional[str]`. -/
def pyStrOfOption (o : Option String) : String :=
  match o with
  | some s => s
  | none => "None"

/-- `SecureSearchClient._text_search` (lines 119-142): one text query; an
`HttpResponseError` is re-raised.  Returns the outcome and the number of
index queries issued. -/
def text_search (backend : SearchBackend) (filter_expression : String) :
    Except String SearchResponse × Nat :=
  (backend .text filter_expression, 1)

/-- `SecureSearchClient._vector_search` (lines 144-181): if the query
embedding did not succeed, raise
`Failed to generate embedding: <error>` without querying the index;
otherwise one vector query. -/
def vector_search (backend : SearchBackend) (query_embedding : EmbeddingResult)
    (filter_expression : String) : Except String SearchResponse × Nat :=
  if query_embedding.success then (backend .vector filter_expression, 1)
  else (.error ("Failed to generate embedding: " ++ pyStrOfOption query_embedding.error), 0)

/-- `SecureSearchClient._hybrid_search` (lines 183-221): if the query
embedding did not succeed, fall back to `_text_search`; otherwise one
hybrid (text + vector) query. -/
def hybrid_search (backend : SearchBackend) (query_embedding : EmbeddingResult)
    (filter_expression : String) : Except String SearchResponse × Nat :=
  if query_embedding.success then (backend .hybrid filter_expression, 1)
  else text_search backend filter_expression

/-- `SecureSearchClient.search_with_permissions` (lines 43-117).  Resolves
the user's accessible groups through `get_user_accessible_groups` (which
itself never raises); an empty group list short-circuits to the
`"No accessible documents found"` empty response with no index query;
otherwise the security filter is built, AND-combined with any caller
filter, and the search of the requested type runs — any exception from it
is caught and turned into the empty response carrying the `error` key.
`query_embedding` is the outcome of the `generate_embedding` call the
vector/hybrid paths make.  Returns the response dictionary and the number
of index queries issued. -/
def search_with_permissions (cache : GroupCache) (user_id : String)
    (now : Nat) (api : GraphResp) (document_access_groups : List String)
    (search_type : String) (filter_expression : Option String)
    (query_embedding : EmbeddingResult) (backend : SearchBackend) :
    SearchResponse × Nat :=
  let user_groups :=
    (get_user_accessible_groups cache user_id now api document_access_groups).1
  if user_groups.isEmpty then
    ({ results := [], count := 0, facets := [],
       message := some "No accessible documents found" }, 0)
  else
    let security_filter := generate_security_filter user_groups
    let combined_filter :=
      match filter_expression with
      | some fe => "(" ++ security_filter ++ ") and (" ++ fe ++ ")"
      | none => security_filter
    let outcome :=
      if search_type = "vector" then
        vector_search backend query_embedding combined_filter
      else if search_type = "text" then
        text_search backend combined_filter
      else
        hybrid_search backend query_embedding combined_filter
    match outcome.1 with
    | .ok response => (response, outcome.2)
    | .error e =>
      ({ results := [], count := 0, facets := [], error := some e }, outcome.2)

/-! ### Theorems -/

/-- Claim C1, counterexample: with an empty accessible-group set the built
filter is the sentinel atom, and it does match a document whose
`document_groups` contains the sentinel value `"no-access"` — so the filter
does not match zero documents for *any* document set, contradicting the
claim. -/
theorem security_filter_empty_counterexample :
    filterMatches (securityFilterAtoms []) ["no-access"] = true := rfl

/-- Claim C1 (amended): the built filter string is the `" or "`-join of the
atoms given by `securityFilterAtoms`; for a non-empty accessible-group set
`G` the filter matches a document exactly when `G` meets the document's
group set; for an empty `G` it matches exactly the documents whose group
set contains the sentinel `"no-access"` (and hence no document of any set
free of the sentinel). -/
theorem security_filter_matches_iff (G docGroups : List String) :
    generate_security_filter G =
      String.intercalate " or " ((securityFilterAtoms G).map renderFilterAtom)
    ∧ (G ≠ [] →
        (filterMatches (securityFilterAtoms G) docGroups = true ↔
          ∃ g, g ∈ G ∧ g ∈ docGroups))
    ∧ (G = [] →
        (filterMatches (securityFilterAtoms G) docGroups = true ↔
          "no-access" ∈ docGroups)) := by
  refine ⟨?_, ?_, ?_⟩
  · cases G with
    | nil => rfl
    | cons g gs => simp [generate_security_filter, securityFilterAtoms]
  · intro hne
    simp only [securityFilterAtoms, List.isEmpty_iff, if_neg hne, filterMatches]
    simp [List.any_eq_true]
  · intro he
    subst he
    simp [securityFilterAtoms, filterMatches]

/-- Claim C1 witness: groups {A, B} against a document in group B. -/
theorem security_filter_matches_iff_witness :
    filterMatches (securityFilterAtoms ["A", "B"]) ["B"] = true :=
  ((security_filter_matches_iff ["A", "B"] ["B"]).2.1 (by simp)).mpr
    ⟨"B", by simp, by simp⟩

/-- Claim C5, counterexample: with an uncached principal whose Graph lookup
fails (HTTP 500), `get_user_accessible_groups` returns the plain empty list
— the very value a successful zero-group resolution returns — so the
caller-facing resolution neither propagates a typed failure nor lets a
caller tell "resolution failed" from "resolved to zero groups". -/
theorem accessible_groups_silent_empty_counterexample :
    (get_user_accessible_groups [] "alice" 0 (.err 500 "boom") ["gA"]).1 = []
    ∧ (get_user_accessible_groups [] "alice" 0 (.ok []) ["gA"]).1 = [] :=
  ⟨rfl, rfl⟩

/-- Claim C5 (amended): the inner `get_user_groups` does raise a typed
failure when the lookup fails on an uncached principal, but
`get_user_accessible_groups` — the operation search callers use — catches
it and silently returns the empty group set. -/
theorem accessible_groups_swallow_lookup_error (cache : GroupCache)
    (user_id : String) (now code : Nat) (text : String)
    (document_access_groups : List String)
    (hmiss : cacheLookup cache ("user_groups_" ++ user_id) = none) :
    (get_user_groups cache user_id now (.err code text)).result =
      .error ("Failed to get user groups: " ++ toString code ++ " - " ++ text)
    ∧ (get_user_accessible_groups cache user_id now (.err code text)
        document_access_groups).1 = [] := by
  constructor
  · simp [get_user_groups, hmiss]
  · simp [get_user_accessible_groups, get_user_groups, hmiss]

/-- Claim C5 witness: uncached principal, failing lookup. -/
theorem accessible_groups_swallow_lookup_error_witness :
    (get_user_groups [] "alice" 0 (.err 500 "boom")).result =
      .error "Failed to get user groups: 500 - boom"
    ∧ (get_user_accessible_groups [] "alice" 0 (.err 500 "boom") ["gA"]).1 = [] :=
  accessible_groups_swallow_lookup_error [] "alice" 0 500 "boom" ["gA"] rfl

/-- Claim C10: `validate_user_access` with an empty required-group list
grants access immediately — it returns `True` and performs no group
lookup, whatever the cache, principal, time or Graph behaviour. -/
theorem validate_user_access_empty_required (cache : GroupCache)
    (user_id : String) (now : Nat) (api : GraphResp) :
    validate_user_access cache user_id now api [] = (true, 0) := rfl

/-- Claim C3, counterexample: an embedding call that keeps receiving
HTTP 400 (a 4xx other than 429) issues 3 network attempts with backoff
sleeps of 1 s and 2 s in between, not a single attempt — the client does
retry on such statuses, contradicting "fails immediately, issuing no
further network attempt". -/
theorem permanent_4xx_retries_counterexample :
    (generate_single_embedding 1536 "item-1" "text"
      (fun _ => .http 400 [] "Bad Request")).attempts = 3
    ∧ (generate_single_embedding 1536 "item-1" "text"
        (fun _ => .http 400 [] "Bad Request")).delays = [1, 2] :=
  ⟨rfl, rfl⟩

/-- Claim C3 (amended): an embedding call that keeps receiving a fixed
status other than 200 and 429 is treated like any 5xx: it is retried up to
the 3-attempt cap with exponential backoff `retry_delay * 2^attempt`
(uncapped on this branch), after which the call returns a failure outcome
carrying the last error `HTTP <status>: <body>` — it is not failed after
the first attempt. -/
theorem http_error_retries_to_failure (vector_dimensions code : Nat)
    (text item_id content_type : String)
    (h200 : code ≠ 200) (h429 : code ≠ 429) :
    generate_single_embedding vector_dimensions item_id content_type
      (fun _ => .http code [] text) =
      { result := { chunk_id := item_id, embedding := [], success := false,
                    content_type := content_type,
                    error := some ("HTTP " ++ toString code ++ ": " ++ text) }
        attempts := 3, delays := [1, 2] } := by
  simp [generate_single_embedding, runAttempts, h200, h429]

/-- Claim C3 witness: status 400. -/
theorem http_error_retries_to_failure_witness :
    generate_single_embedding 1536 "item-1" "text"
      (fun _ => .http 400 [] "Bad Request") =
      { result := { chunk_id := "item-1", embedding := [], success := false,
                    content_type := "text",
                    error := some "HTTP 400: Bad Request" }
        attempts := 3, delays := [1, 2] } :=
  http_error_retries_to_failure 1536 400 "Bad Request" "item-1" "text"
    (by decide) (by decide)

/-- Claim C4: under sustained HTTP 429 the embedding call makes exactly 3
attempts with backoff `min(retry_delay * 2^attempt, 60)` seconds between
them and then returns (never raises) a failure outcome carrying the last
429 body as `Rate limit exceeded: <body>`; if a 200 with a valid vector
arrives on attempt `k` before the cap, the call returns the success outcome
for that vector after the `k` backoff sleeps.  In particular 5 consecutive
429s exceed the 3-attempt cap, so the 200 is never reached and the rate-limit
failure outcome is returned. -/
theorem rate_limited_retry_policy (vector_dimensions : Nat)
    (item_id content_type : String) (responses : Nat → HttpResp)
    (texts : Nat → String) (emb : List Int) (k : Nat) :
    ((∀ i, i < 3 → responses i = .http 429 [] (texts i)) →
      generate_single_embedding vector_dimensions item_id content_type responses =
        { result := { chunk_id := item_id, embedding := [], success := false,
                      content_type := content_type,
                      error := some ("Rate limit exceeded: " ++ texts 2) }
          attempts := 3
          delays := [min (1 * 2 ^ 0) 60, min (1 * 2 ^ 1) 60] })
    ∧ (k < 3 →
        (∀ i, i < k → responses i = .http 429 [] (texts i)) →
        responses k = .http 200 [emb] "" →
        validate_embedding vector_dimensions emb = true →
        generate_single_embedding vector_dimensions item_id content_type responses =
          { result := { chunk_id := item_id, embedding := emb, success := true,
                        content_type := content_type }
            attempts := k + 1
            delays := (List.range k).map (fun attempt => min (1 * 2 ^ attempt) 60) }) := by
  constructor
  · intro hall
    have h0 := hall 0 (by omega)
    have h1 := hall 1 (by omega)
    have h2 := hall 2 (by omega)
    simp [generate_single_embedding, runAttempts, h0, h1, h2]
  · intro hk hbefore hok hvalid
    interval_cases k
    · simp [generate_single_embedding, runAttempts, hok, hvalid]
    · have h0 := hbefore 0 (by omega)
      simp [generate_single_embedding, runAttempts, h0, hok, hvalid]
      decide
    · have h0 := hbefore 0 (by omega)
      have h1 := hbefore 1 (by omega)
      simp [generate_single_embedding, runAttempts, h0, h1, hok, hvalid]
      decide

/-- Claim C4 witness: two 429s then a valid 200, and a stream of nothing
but 429s (as in the 5-consecutive-429 scenario). -/
theorem rate_limited_retry_policy_witness :
    generate_single_embedding 1 "q" "text"
      (fun i => if i < 2 then .http 429 [] "slow" else .http 200 [[5]] "") =
      { result := { chunk_id := "q", embedding := [5], success := true,
                    content_type := "text" }
        attempts := 3
        delays := (List.range 2).map (fun attempt => min (1 * 2 ^ attempt) 60) }
    ∧ generate_single_embedding 1 "q" "text" (fun _ => .http 429 [] "slow") =
      { result := { chunk_id := "q", embedding := [], success := false,
                    content_type := "text",
                    error := some "Rate limit exceeded: slow" }
        attempts := 3
        delays := [min (1 * 2 ^ 0) 60, min (1 * 2 ^ 1) 60] } := by
  constructor
  · exact (rate_limited_retry_policy 1 "q" "text"
      (fun i => if i < 2 then .http 429 [] "slow" else .http 200 [[5]] "")
      (fun _ => "slow") [5] 2).2 (by decide)
      (by intro i hi; interval_cases i <;> rfl) rfl rfl
  · exact (rate_limited_retry_policy 1 "q" "text"
      (fun _ => .http 429 [] "slow")
      (fun _ => "slow") [] 0).1 (by intro i _; rfl)

/-- Dictionary assignment followed by lookup of the same key finds the new
entry. -/
theorem cacheLookup_cacheInsert (cache : GroupCache) (key : String)
    (entry : CacheEntry) : cacheLookup (cacheInsert cache key entry) key = some entry := by
  induction cache with
  | nil => simp [cacheInsert, cacheLookup]
  | cons p rest ih =>
    by_cases hp : p.1 = key
    · simp [cacheInsert, cacheLookup, hp]
    · simp only [cacheInsert, if_neg hp]
      simpa [cacheLookup, List.find?, hp] using ih

/-- Claim C6: starting from a principal with no cache entry, the first
resolution issues one Graph lookup and stores the fetched groups with its
own timestamp; a second resolution at any time strictly within the
30-minute TTL issues no lookup and returns the cached groups unchanged
(so the two resolutions issue exactly one lookup between them, whatever
the Graph would have answered); a resolution once the TTL has elapsed
issues a fresh lookup and replaces the cached entry with the fresh groups
and the fresh timestamp. -/
theorem group_cache_ttl (cache : GroupCache) (user_id : String)
    (t0 t1 t2 : Nat) (gs gs2 : List String) (apiX : GraphResp)
    (hmiss : cacheLookup cache ("user_groups_" ++ user_id) = none)
    (hfresh : t1 - t0 < cache_expiry) (hstale : ¬ t2 - t0 < cache_expiry) :
    ((get_user_groups cache user_id t0 (.ok gs)).lookups = 1
      ∧ (get_user_groups cache user_id t0 (.ok gs)).result = .ok gs
      ∧ cacheLookup (get_user_groups cache user_id t0 (.ok gs)).cache
          ("user_groups_" ++ user_id) = some { groups := gs, timestamp := t0 })
    ∧ ((get_user_groups (get_user_groups cache user_id t0 (.ok gs)).cache
          user_id t1 apiX).lookups = 0
      ∧ (get_user_groups (get_user_groups cache user_id t0 (.ok gs)).cache
          user_id t1 apiX).result = .ok gs
      ∧ (get_user_groups (get_user_groups cache user_id t0 (.ok gs)).cache
          user_id t1 apiX).cache = (get_user_groups cache user_id t0 (.ok gs)).cache)
    ∧ ((get_user_groups (get_user_groups cache user_id t0 (.ok gs)).cache
          user_id t2 (.ok gs2)).lookups = 1
      ∧ (get_user_groups (get_user_groups cache user_id t0 (.ok gs)).cache
          user_id t2 (.ok gs2)).result = .ok gs2
      ∧ cacheLookup (get_user_groups (get_user_groups cache user_id t0 (.ok gs)).cache
          user_id t2 (.ok gs2)).cache ("user_groups_" ++ user_id) =
          some { groups := gs2, timestamp := t2 }) := by
  have hc1 : get_user_groups cache user_id t0 (.ok gs) =
      { result := .ok gs
        cache := cacheInsert cache ("user_groups_" ++ user_id)
          { groups := gs, timestamp := t0 }
        lookups := 1 } := by
    simp [get_user_groups, hmiss]
  have hl : cacheLookup
      (cacheInsert cache ("user_groups_" ++ user_id) { groups := gs, timestamp := t0 })
      ("user_groups_" ++ user_id) = some { groups := gs, timestamp := t0 } :=
    cacheLookup_cacheInsert ..
  have hc2 : get_user_groups
      (cacheInsert cache ("user_groups_" ++ user_id) { groups := gs, timestamp := t0 })
      user_id t1 apiX =
      { result := .ok gs
        cache := cacheInsert cache ("user_groups_" ++ user_id)
          { groups := gs, timestamp := t0 }
        lookups := 0 } := by
    simp [get_user_groups, hl, hfresh]
  have hc3 : get_user_groups
      (cacheInsert cache ("user_groups_" ++ user_id) { groups := gs, timestamp := t0 })
      user_id t2 (.ok gs2) =
      { result := .ok gs2
        cache := cacheInsert
          (cacheInsert cache ("user_groups_" ++ user_id) { groups := gs, timestamp := t0 })
          ("user_groups_" ++ user_id) { groups := gs2, timestamp := t2 }
        lookups := 1 } := by
    simp only [get_user_groups, hl]
    rw [if_neg hstale]
  refine ⟨⟨?_, ?_, ?_⟩, ⟨?_, ?_, ?_⟩, ⟨?_, ?_, ?_⟩⟩ <;>
    simp [hc1, hc2, hc3, hl, cacheLookup_cacheInsert]

/-- Claim C6 witness: empty cache, fetch at `t = 0`, hit at `t = 100`,
refetch at `t = 1800` (= the 30-minute TTL). -/
theorem group_cache_ttl_witness :
    ((get_user_groups [] "alice" 0 (.ok ["g1"])).lookups = 1
      ∧ (get_user_groups [] "alice" 0 (.ok ["g1"])).result = .ok ["g1"]
      ∧ cacheLookup (get_user_groups [] "alice" 0 (.ok ["g1"])).cache
          "user_groups_alice" = some { groups := ["g1"], timestamp := 0 })
    ∧ ((get_user_groups (get_user_groups [] "alice" 0 (.ok ["g1"])).cache
          "alice" 100 (.err 500 "down")).lookups = 0
      ∧ (get_user_groups (get_user_groups [] "alice" 0 (.ok ["g1"])).cache
          "alice" 100 (.err 500 "down")).result = .ok ["g1"]
      ∧ (get_user_groups (get_user_groups [] "alice" 0 (.ok ["g1"])).cache
          "alice" 100 (.err 500 "down")).cache =
          (get_user_groups [] "alice" 0 (.ok ["g1"])).cache)
    ∧ ((get_user_groups (get_user_groups [] "alice" 0 (.ok ["g1"])).cache
          "alice" 1800 (.ok ["g2"])).lookups = 1
      ∧ (get_user_groups (get_user_groups [] "alice" 0 (.ok ["g1"])).cache
          "alice" 1800 (.ok ["g2"])).result = .ok ["g2"]
      ∧ cacheLookup (get_user_groups (get_user_groups [] "alice" 0 (.ok ["g1"])).cache
          "alice" 1800 (.ok ["g2"])).cache "user_groups_alice" =
          some { groups := ["g2"], timestamp := 1800 }) := by
  have := group_cache_ttl [] "alice" 0 100 1800 ["g1"] ["g2"] (.err 500 "down")
    rfl (by decide) (by decide)
  simpa using this

/-- Claim C7: when the query-embedding outcome is a failure,
`_hybrid_search` becomes exactly `_text_search` — one text-only index
query whose successful response is returned — while `_vector_search`
raises `Failed to generate embedding: <error>` without querying the index;
at the gateway, with resolvable groups, a hybrid search then still returns
the text search's results while a vector search returns the error
response. -/
theorem hybrid_degrades_vector_fails (backend : SearchBackend)
    (query_embedding : EmbeddingResult) (filt : String) (resp : SearchResponse)
    (cache : GroupCache) (user_id : String) (now : Nat) (api : GraphResp)
    (document_access_groups : List String)
    (hfail : query_embedding.success = false) :
    hybrid_search backend query_embedding filt = text_search backend filt
    ∧ (backend .text filt = .ok resp →
        hybrid_search backend query_embedding filt = (.ok resp, 1))
    ∧ vector_search backend query_embedding filt =
        (.error ("Failed to generate embedding: " ++
          pyStrOfOption query_embedding.error), 0)
    ∧ (¬ (get_user_accessible_groups cache user_id now api
            document_access_groups).1.isEmpty →
        backend .text (generate_security_filter
          (get_user_accessible_groups cache user_id now api
            document_access_groups).1) = .ok resp →
        search_with_permissions cache user_id now api document_access_groups
          "hybrid" none query_embedding backend = (resp, 1))
    ∧ (¬ (get_user_accessible_groups cache user_id now api
            document_access_groups).1.isEmpty →
        search_with_permissions cache user_id now api document_access_groups
          "vector" none query_embedding backend =
          ({ results := [], count := 0, facets := [],
             error := some ("Failed to generate embedding: " ++
               pyStrOfOption query_embedding.error) }, 0)) := by
  refine ⟨?_, ?_, ?_, ?_, ?_⟩
  · simp [hybrid_search, hfail]
  · intro hok
    simp [hybrid_search, text_search, hfail, hok]
  · simp [vector_search, hfail]
  · intro hne hok
    simp [search_with_permissions, hne, hybrid_search, text_search, hfail, hok]
  · intro hne
    simp [search_with_permissions, hne, vector_search, hfail]

/-- Claim C7 witness: a failed query embedding, one accessible group, a
text backend that returns one result. -/
theorem hybrid_degrades_vector_fails_witness :
    hybrid_search
      (fun _ _ => .ok { results := ["doc1"], count := 1, facets := [] })
      { chunk_id := "q", embedding := [], success := false,
        error := some "Rate limit exceeded: slow" } "f" =
    text_search
      (fun _ _ => .ok { results := ["doc1"], count := 1, facets := [] }) "f"
    ∧ search_with_permissions [] "alice" 0 (.ok ["gA"]) ["gA"] "hybrid" none
        { chunk_id := "q", embedding := [], success := false,
          error := some "Rate limit exceeded: slow" }
        (fun _ _ => .ok { results := ["doc1"], count := 1, facets := [] }) =
      ({ results := ["doc1"], count := 1, facets := [] }, 1)
    ∧ search_with_permissions [] "alice" 0 (.ok ["gA"]) ["gA"] "vector" none
        { chunk_id := "q", embedding := [], success := false,
          error := some "Rate limit exceeded: slow" }
        (fun _ _ => .ok { results := ["doc1"], count := 1, facets := [] }) =
      ({ results := [], count := 0, facets := [],
         error := some "Failed to generate embedding: Rate limit exceeded: slow" }, 0) := by
  have h := hybrid_degrades_vector_fails
    (fun _ _ => .ok { results := ["doc1"], count := 1, facets := [] })
    { chunk_id := "q", embedding := [], success := false,
      error := some "Rate limit exceeded: slow" }
    "f" { results := ["doc1"], count := 1, facets := [] }
    [] "alice" 0 (.ok ["gA"]) ["gA"] rfl
  exact ⟨h.1, h.2.2.2.1 (by decide) rfl, h.2.2.2.2 (by decide)⟩

/-- Claim C9: if group resolution yields the empty list — in particular
whenever the Graph lookup fails for an uncached principal — the gateway
returns the `"No accessible documents found"` response with zero results
and zero count and issues no index query; and when groups resolve but the
index query itself raises (e.g. an authorization failure at the search
service), the caught exception becomes an empty response with the `error`
status instead of propagating.  `search_with_permissions` is a total
function, so no path raises to the caller. -/
theorem search_fail_closed (cache : GroupCache) (user_id : String) (now : Nat)
    (api : GraphResp) (document_access_groups : List String)
    (search_type : String) (filter_expression : Option String)
    (query_embedding : EmbeddingResult) (backend : SearchBackend)
    (code : Nat) (text e : String) :
    ((get_user_accessible_groups cache user_id now api
        document_access_groups).1 = [] →
      search_with_permissions cache user_id now api document_access_groups
        search_type filter_expression query_embedding backend =
        ({ results := [], count := 0, facets := [],
           message := some "No accessible documents found" }, 0))
    ∧ (cacheLookup cache ("user_groups_" ++ user_id) = none →
        search_with_permissions cache user_id now (.err code text)
          document_access_groups search_type filter_expression
          query_embedding backend =
          ({ results := [], count := 0, facets := [],
             message := some "No accessible documents found" }, 0))
    ∧ (¬ (get_user_accessible_groups cache user_id now api
            document_access_groups).1.isEmpty →
        backend .text (generate_security_filter
          (get_user_accessible_groups cache user_id now api
            document_access_groups).1) = .error e →
        search_with_permissions cache user_id now api document_access_groups
          "text" none query_embedding backend =
          ({ results := [], count := 0, facets := [], error := some e }, 1)) := by
  refine ⟨?_, ?_, ?_⟩
  · intro hempty
    simp [search_with_permissions, hempty]
  · intro hmiss
    simp [search_with_permissions, get_user_accessible_groups, get_user_groups, hmiss]
  · intro hne herr
    simp [search_with_permissions, hne, text_search, herr]

/-- Claim C9 witness: an uncached principal whose lookup fails with
HTTP 401; and a principal with one group whose index query raises. -/
theorem search_fail_closed_witness :
    search_with_permissions [] "alice" 0 (.err 401 "unauthorized") ["gA"]
      "hybrid" none { chunk_id := "q", embedding := [1], success := true }
      (fun _ _ => .ok { results := ["doc1"], count := 1, facets := [] }) =
      ({ results := [], count := 0, facets := [],
         message := some "No accessible documents found" }, 0)
    ∧ search_with_permissions [] "alice" 0 (.ok ["gA"]) ["gA"] "text" none
        { chunk_id := "q", embedding := [1], success := true }
        (fun _ _ => .error "403 forbidden") =
      ({ results := [], count := 0, facets := [],
         error := some "403 forbidden" }, 1) := by
  constructor
  · exact (search_fail_closed [] "alice" 0 (.err 401 "unauthorized") ["gA"]
      "hybrid" none { chunk_id := "q", embedding := [1], success := true }
      (fun _ _ => .ok { results := ["doc1"], count := 1, facets := [] })
      401 "unauthorized" "e").2.1 rfl
  · exact (search_fail_closed [] "alice" 0 (.ok ["gA"]) ["gA"]
      "text" none { chunk_id := "q", embedding := [1], success := true }
      (fun _ _ => .error "403 forbidden")
      401 "unauthorized" "403 forbidden").2.2 (by decide) rfl

/-- Every return of the retry loop carries the caller's `item_id` as the
outcome's `chunk_id`, whatever the response stream does. -/
theorem runAttempts_chunk_id (vector_dimensions max_retries retry_delay : Nat)
    (item_id content_type : String) (responses : Nat → HttpResp) :
    ∀ fuel attempt,
      (runAttempts vector_dimensions max_retries retry_delay item_id
        content_type responses attempt fuel).result.chunk_id = item_id := by
  intro fuel
  induction fuel with
  | zero => intro attempt; rfl
  | succ n ih =>
    intro attempt
    simp only [runAttempts]
    cases responses attempt with
    | http code data text =>
      dsimp only
      split
      · cases data.head? with
        | some embedding =>
          dsimp only
          split
          · rfl
          · exact ih (attempt + 1)
        | none => exact ih (attempt + 1)
      · split
        · split
          · exact ih (attempt + 1)
          · rfl
        · split
          · exact ih (attempt + 1)
          · rfl
    | clientError msg =>
      dsimp only
      split
      · exact ih (attempt + 1)
      · rfl
    | exn msg =>
      dsimp only
      split
      · exact ih (attempt + 1)
      · rfl

/-- Claim C2: `_execute_embedding_tasks` returns exactly one outcome per
gathered task — the output length equals the input length and the `i`-th
outcome carries the `i`-th task's id (the result's own id, or the source
object's id when the slot held an exception) — and in the composed
`generate_embeddings_for_chunks` the outcome ids are exactly the chunk ids
in order (no duplicates beyond the input's, no drops), for every response
stream, i.e. however many of the individual calls fail. -/
theorem batch_outcomes_correlate (vector_dimensions : Nat)
    (pairs : List (String × TaskOutcome))
    (chunks : List (String × String)) (responses : String → Nat → HttpResp) :
    (execute_embedding_tasks pairs).1.length = pairs.length
    ∧ (execute_embedding_tasks pairs).1.map (fun r => r.chunk_id) =
        pairs.map taskOutcomeId
    ∧ (generate_embeddings_for_chunks vector_dimensions chunks responses).map
        (fun r => r.chunk_id) = chunks.map (fun chunk => chunk.1) := by
  have hlen : ∀ ps : List (String × TaskOutcome),
      (execute_embedding_tasks ps).1.length = ps.length := by
    intro ps
    induction ps with
    | nil => rfl
    | cons p rest ih =>
      cases hp : p.2 with
      | result r =>
        by_cases hs : r.success <;>
          simp [execute_embedding_tasks, hp, hs, ih]
      | exn msg => simp [execute_embedding_tasks, hp, ih]
  have hmap : ∀ ps : List (String × TaskOutcome),
      (execute_embedding_tasks ps).1.map (fun r => r.chunk_id) =
        ps.map taskOutcomeId := by
    intro ps
    induction ps with
    | nil => rfl
    | cons p rest ih =>
      cases hp : p.2 with
      | result r =>
        by_cases hs : r.success <;>
          simp [execute_embedding_tasks, taskOutcomeId, hp, hs, ih]
      | exn msg => simp [execute_embedding_tasks, taskOutcomeId, hp, ih]
  refine ⟨hlen pairs, hmap pairs, ?_⟩
  by_cases hc : chunks.isEmpty
  · rw [List.isEmpty_iff] at hc
    subst hc
    rfl
  · unfold generate_embeddings_for_chunks
    rw [if_neg hc, hmap, List.map_map]
    refine List.map_congr_left ?_
    intro chunk _
    simp [taskOutcomeId, generate_single_embedding, runAttempts_chunk_id]

/-- The per-document tally loop of `_upload_batch`: starting from any
accumulator it adds the number of succeeded items to `success` and the
number of failed items to `failed`. -/
theorem upload_batch_fold_tally (items : List IndexingResult)
    (acc : UploadResults) :
    ((items.foldl
      (fun acc doc_result =>
        if doc_result.succeeded then { acc with success := acc.success + 1 }
        else
          { acc with
            failed := acc.failed + 1
            errors := acc.errors ++
              ["Document " ++ doc_result.key ++ ": " ++ doc_result.error_message] })
      acc).success = acc.success + items.countP (fun r => r.succeeded))
    ∧ ((items.foldl
      (fun acc doc_result =>
        if doc_result.succeeded then { acc with success := acc.success + 1 }
        else
          { acc with
            failed := acc.failed + 1
            errors := acc.errors ++
              ["Document " ++ doc_result.key ++ ": " ++ doc_result.error_message] })
      acc).failed = acc.failed + items.countP (fun r => ! r.succeeded)) := by
  induction items generalizing acc with
  | nil => simp
  | cons it rest ih =>
    by_cases hs : it.succeeded <;>
      simp [List.countP_cons, hs, ih] <;> omega

/-- `_upload_batch` against an index service that reports per-document
status `f` (with message `msg`): successes and failures are the counts of
accepted and rejected documents of the batch. -/
theorem upload_batch_perdoc_counts (f : IndexDocument → Bool)
    (msg : IndexDocument → String) (documents : List IndexDocument)
    (batch_number : Nat) :
    (upload_batch
      (fun ds => .ok (ds.map (fun d =>
        { key := d.id, succeeded := f d, error_message := msg d })))
      documents batch_number).success = documents.countP f
    ∧ (upload_batch
      (fun ds => .ok (ds.map (fun d =>
        { key := d.id, succeeded := f d, error_message := msg d })))
      documents batch_number).failed = documents.countP (fun d => ! f d) := by
  have h := upload_batch_fold_tally
    (documents.map (fun d =>
      { key := d.id, succeeded := f d, error_message := msg d }))
    { success := 0, failed := 0, errors := [] }
  simpa [upload_batch, List.countP_map, Function.comp] using h

/-- The per-batch summation loop of `upload_documents`: starting from any
accumulator it adds each batch record's success and failed counts. -/
theorem upload_batches_fold_tally (api : UploadApi)
    (bs : List (Nat × List IndexDocument)) (acc : UploadResults) :
    ((bs.foldl
      (fun acc batch =>
        let batch_result := upload_batch api batch.2 (batch.1 + 1)
        { success := acc.success + batch_result.success
          failed := acc.failed + batch_result.failed
          errors := acc.errors ++ batch_result.errors })
      acc).success =
        acc.success + (bs.map (fun b => (upload_batch api b.2 (b.1 + 1)).success)).sum)
    ∧ ((bs.foldl
      (fun acc batch =>
        let batch_result := upload_batch api batch.2 (batch.1 + 1)
        { success := acc.success + batch_result.success
          failed := acc.failed + batch_result.failed
          errors := acc.errors ++ batch_result.errors })
      acc).failed =
        acc.failed + (bs.map (fun b => (upload_batch api b.2 (b.1 + 1)).failed)).sum) := by
  induction bs generalizing acc with
  | nil => simp
  | cons b rest ih => simp [ih] <;> omega

/-- Concatenating the slices `documents[i:i+batch_size]` gives back the
document list. -/
theorem chunksOf_flatten (batch_size : Nat) (hpos : batch_size ≠ 0) :
    ∀ (n : Nat) (l : List IndexDocument), l.length ≤ n →
      (chunksOf batch_size l).flatten = l := by
  intro n
  induction n with
  | zero =>
    intro l hl
    have : l = [] := by
      cases l with
      | nil => rfl
      | cons a t => simp at hl
    subst this
    simp [chunksOf]
  | succ n ih =>
    intro l hl
    by_cases he : l.isEmpty
    · rw [List.isEmpty_iff] at he
      subst he
      simp [chunksOf]
    · rw [chunksOf, dif_neg (by simp [he, hpos])]
      rw [List.flatten_cons]
      rw [ih (l.drop batch_size) ?_]
      · exact List.take_append_drop ..
      · have hne : l ≠ [] := by simpa [List.isEmpty_iff] using he
        have hlen : l.length - batch_size < l.length :=
          Nat.sub_lt (List.length_pos.mpr hne) (Nat.pos_of_ne_zero hpos)
        simp only [List.length_drop]
        omega

/-- Preparing against an empty embedding list skips every chunk. -/
theorem prepare_documents_nil_embeddings (chunks : List DocumentChunk) :
    prepare_documents chunks [] = ([], chunks.length) := by
  induction chunks with
  | nil => rfl
  | cons c rest ih => simp [prepare_documents, embedding_map_get, ih]

/-- Summed over the numbered batches of 100, a per-document-status index
service accepts exactly the accepted documents and rejects exactly the
rejected ones of the whole prepared list. -/
theorem batches_count_sum (f : IndexDocument → Bool)
    (msg : IndexDocument → String) (docs : List IndexDocument) :
    ((((List.range (chunksOf 100 docs).length).zip (chunksOf 100 docs)).map
      (fun b => (upload_batch
        (fun ds => .ok (ds.map (fun d =>
          { key := d.id, succeeded := f d, error_message := msg d })))
        b.2 (b.1 + 1)).success)).sum = docs.countP f)
    ∧ ((((List.range (chunksOf 100 docs).length).zip (chunksOf 100 docs)).map
      (fun b => (upload_batch
        (fun ds => .ok (ds.map (fun d =>
          { key := d.id, succeeded := f d, error_message := msg d })))
        b.2 (b.1 + 1)).failed)).sum = docs.countP (fun d => ! f d)) := by
  have hflat := chunksOf_flatten 100 (by decide) docs.length docs le_rfl
  have hcount : ∀ (p : IndexDocument → Bool) (L : List (List IndexDocument)),
      L.flatten.countP p = (L.map (List.countP p)).sum := by
    intro p L
    induction L with
    | nil => rfl
    | cons a L ih => simp [List.countP_append, ih]
  have hsnd : (((List.range (chunksOf 100 docs).length).zip
      (chunksOf 100 docs)).map Prod.snd) = chunksOf 100 docs :=
    List.map_snd_zip _ _ (le_of_eq (List.length_range _).symm)
  constructor
  · calc (((List.range (chunksOf 100 docs).length).zip (chunksOf 100 docs)).map
        (fun b => (upload_batch
          (fun ds => .ok (ds.map (fun d =>
            { key := d.id, succeeded := f d, error_message := msg d })))
          b.2 (b.1 + 1)).success)).sum
        = ((((List.range (chunksOf 100 docs).length).zip
            (chunksOf 100 docs)).map Prod.snd).map (fun b => b.countP f)).sum := by
          rw [List.map_map]
          exact congrArg List.sum (List.map_congr_left (fun b _ =>
            (upload_batch_perdoc_counts f msg b.2 (b.1 + 1)).1))
      _ = ((chunksOf 100 docs).map (fun b => b.countP f)).sum := by rw [hsnd]
      _ = (chunksOf 100 docs).flatten.countP f := (hcount f _).symm
      _ = docs.countP f := by rw [hflat]
  · calc (((List.range (chunksOf 100 docs).length).zip (chunksOf 100 docs)).map
        (fun b => (upload_batch
          (fun ds => .ok (ds.map (fun d =>
            { key := d.id, succeeded := f d, error_message := msg d })))
          b.2 (b.1 + 1)).failed)).sum
        = ((((List.range (chunksOf 100 docs).length).zip
            (chunksOf 100 docs)).map Prod.snd).map
              (fun b => b.countP (fun d => ! f d))).sum := by
          rw [List.map_map]
          exact congrArg List.sum (List.map_congr_left (fun b _ =>
            (upload_batch_perdoc_counts f msg b.2 (b.1 + 1)).2))
      _ = ((chunksOf 100 docs).map (fun b => b.countP (fun d => ! f d))).sum := by
          rw [hsnd]
      _ = (chunksOf 100 docs).flatten.countP (fun d => ! f d) :=
          (hcount (fun d => ! f d) _).symm
      _ = docs.countP (fun d => ! f d) := by rw [hflat]

/-- Claim C8: a document reaches the upload stage only when the embedding
outcome correlated to its id succeeded, and its vector is that outcome's
vector; every chunk is either prepared or counted in the separate
`skipped_count`; when any document survives, the returned record's
success/failed counts tally exactly the index service's per-document
accept/reject decisions over the prepared documents — the skipped units are
not among them and are reported through the separate skipped counter; when
every unit was dropped, no upload happens and the whole input is reported
failed with the `"No valid documents"` error. -/
theorem publish_only_successful_outcomes (chunks : List DocumentChunk)
    (embeddings : List EmbeddingResult) (f : IndexDocument → Bool)
    (msg : IndexDocument → String) :
    (∀ doc ∈ (prepare_documents chunks embeddings).1, ∃ er,
        embedding_map_get embeddings doc.id = some er ∧ er.success = true
        ∧ doc.embedding = er.embedding)
    ∧ (prepare_documents chunks embeddings).1.length
        + (prepare_documents chunks embeddings).2 = chunks.length
    ∧ ((prepare_documents chunks embeddings).1 ≠ [] →
        (upload_documents
          (fun ds => .ok (ds.map (fun d =>
            { key := d.id, succeeded := f d, error_message := msg d })))
          chunks embeddings).1.success =
            (prepare_documents chunks embeddings).1.countP f
        ∧ (upload_documents
          (fun ds => .ok (ds.map (fun d =>
            { key := d.id, succeeded := f d, error_message := msg d })))
          chunks embeddings).1.failed =
            (prepare_documents chunks embeddings).1.countP (fun d => ! f d)
        ∧ (upload_documents
          (fun ds => .ok (ds.map (fun d =>
            { key := d.id, succeeded := f d, error_message := msg d })))
          chunks embeddings).2 = (prepare_documents chunks embeddings).2)
    ∧ ((prepare_documents chunks embeddings).1 = [] → chunks ≠ [] →
        embeddings ≠ [] →
        upload_documents
          (fun ds => .ok (ds.map (fun d =>
            { key := d.id, succeeded := f d, error_message := msg d })))
          chunks embeddings =
          ({ success := 0, failed := chunks.length,
             errors := ["No valid documents"] },
           (prepare_documents chunks embeddings).2)) := by
  refine ⟨?_, ?_, ?_, ?_⟩
  · induction chunks with
    | nil => intro doc hd; simp [prepare_documents] at hd
    | cons c rest ih =>
      intro doc hd
      simp only [prepare_documents] at hd
      cases hm : embedding_map_get embeddings c.id with
      | some er =>
        rw [hm] at hd
        dsimp only at hd
        by_cases hs : er.success
        · rw [if_pos hs] at hd
          rcases List.mem_cons.mp hd with hdoc | hdoc
          · subst hdoc
            exact ⟨er, by simpa [mkIndexDocument] using hm, hs, rfl⟩
          · exact ih doc hdoc
        · rw [if_neg hs] at hd
          exact ih doc hd
      | none =>
        rw [hm] at hd
        dsimp only at hd
        exact ih doc hd
  · induction chunks with
    | nil => rfl
    | cons c rest ih =>
      simp only [prepare_documents]
      cases hm : embedding_map_get embeddings c.id with
      | some er =>
        by_cases hs : er.success
        · simp [hs]
          omega
        · simp [hs]
          omega
      | none =>
        simp
        omega
  · intro hne
    have hch : ¬ chunks.isEmpty := by
      intro h
      rw [List.isEmpty_iff] at h
      subst h
      exact hne rfl
    have hem : ¬ embeddings.isEmpty := by
      intro h
      rw [List.isEmpty_iff] at h
      subst h
      rw [prepare_documents_nil_embeddings] at hne
      exact hne rfl
    have hd : ¬ (prepare_documents chunks embeddings).1.isEmpty := by
      simpa [List.isEmpty_iff] using hne
    simp only [upload_documents, if_neg (by simp [hch, hem] : ¬ (chunks.isEmpty ∨ embeddings.isEmpty)), if_neg hd]
    refine ⟨?_, ?_, trivial⟩
    · rw [(upload_batches_fold_tally _ _ _).1, Nat.zero_add]
      exact (batches_count_sum f msg _).1
    · rw [(upload_batches_fold_tally _ _ _).2, Nat.zero_add]
      exact (batches_count_sum f msg _).2
  · intro hnil hch hem
    have hd : (prepare_documents chunks embeddings).1.isEmpty := by
      simp [hnil]
    simp only [upload_documents,
      if_neg (by simp [hch, hem, List.isEmpty_iff] :
        ¬ (chunks.isEmpty ∨ embeddings.isEmpty)),
      if_pos hd]

/-- Claim C8 witness: one chunk with a successful embedding and one with a
failed embedding, against an index service that accepts everything — the
successful unit is uploaded and counted, the failed unit is skipped; and
the all-skipped input is reported failed with `"No valid documents"`. -/
theorem publish_only_successful_outcomes_witness :
    (upload_documents
      (fun ds => .ok (ds.map (fun d =>
        { key := d.id, succeeded := true, error_message := "" })))
      [{ id := "c1", title := "t", content := "x", headline := "h",
         file_name := "f.pdf", page_number := 1, chunk_index := 0,
         created_at := "2024-01-01", token_count := 10,
         document_groups := ["gA"], default_group := "gA",
         permission_level := "group" },
       { id := "c2", title := "t", content := "y", headline := "h",
         file_name := "f.pdf", page_number := 2, chunk_index := 1,
         created_at := "2024-01-01", token_count := 12,
         document_groups := ["gA"], default_group := "gA",
         permission_level := "group" }]
      [{ chunk_id := "c1", embedding := [1, 2], success := true },
       { chunk_id := "c2", embedding := [], success := false,
         error := some "Rate limit exceeded: slow" }]).1.success = 1
    ∧ (upload_documents
      (fun ds => .ok (ds.map (fun d =>
        { key := d.id, succeeded := true, error_message := "" })))
      [{ id := "c1", title := "t", content := "x", headline := "h",
         file_name := "f.pdf", page_number := 1, chunk_index := 0,
         created_at := "2024-01-01", token_count := 10,
         document_groups := ["gA"], default_group := "gA",
         permission_level := "group" },
       { id := "c2", title := "t", content := "y", headline := "h",
         file_name := "f.pdf", page_number := 2, chunk_index := 1,
         created_at := "2024-01-01", token_count := 12,
         document_groups := ["gA"], default_group := "gA",
         permission_level := "group" }]
      [{ chunk_id := "c1", embedding := [1, 2], success := true },
       { chunk_id := "c2", embedding := [], success := false,
         error := some "Rate limit exceeded: slow" }]).1.failed = 0
    ∧ (upload_documents
      (fun ds => .ok (ds.map (fun d =>
        { key := d.id, succeeded := true, error_message := "" })))
      [{ id := "c1", title := "t", content := "x", headline := "h",
         file_name := "f.pdf", page_number := 1, chunk_index := 0,
         created_at := "2024-01-01", token_count := 10,
         document_groups := ["gA"], default_group := "gA",
         permission_level := "group" },
       { id := "c2", title := "t", content := "y", headline := "h",
         file_name := "f.pdf", page_number := 2, chunk_index := 1,
         created_at := "2024-01-01", token_count := 12,
         document_groups := ["gA"], default_group := "gA",
         permission_level := "group" }]
      [{ chunk_id := "c1", embedding := [1, 2], success := true },
       { chunk_id := "c2", embedding := [], success := false,
         error := some "Rate limit exceeded: slow" }]).2 = 1
    ∧ upload_documents
      (fun ds => .ok (ds.map (fun d =>
        { key := d.id, succeeded := true, error_message := "" })))
      [{ id := "c2", title := "t", content := "y", headline := "h",
         file_name := "f.pdf", page_number := 2, chunk_index := 1,
         created_at := "2024-01-01", token_count := 12,
         document_groups := ["gA"], default_group := "gA",
         permission_level := "group" }]
      [{ chunk_id := "c2", embedding := [], success := false,
         error := some "Rate limit exceeded: slow" }] =
      ({ success := 0, failed := 1, errors := ["No valid documents"] }, 1) := by
  have h := (publish_only_successful_outcomes
    [{ id := "c1", title := "t", content := "x", headline := "h",
       file_name := "f.pdf", page_number := 1, chunk_index := 0,
       created_at := "2024-01-01", token_count := 10,
       document_groups := ["gA"], default_group := "gA",
       permission_level := "group" },
     { id := "c2", title := "t", content := "y", headline := "h",
       file_name := "f.pdf", page_number := 2, chunk_index := 1,
       created_at := "2024-01-01", token_count := 12,
       document_groups := ["gA"], default_group := "gA",
       permission_level := "group" }]
    [{ chunk_id := "c1", embedding := [1, 2], success := true },
     { chunk_id := "c2", embedding := [], success := false,
       error := some "Rate limit exceeded: slow" }]
    (fun _ => true) (fun _ => "")).2.2.1 (by decide)
  have h4 := (publish_only_successful_outcomes
    [{ id := "c2", title := "t", content := "y", headline := "h",
       file_name := "f.pdf", page_number := 2, chunk_index := 1,
       created_at := "2024-01-01", token_count := 12,
       document_groups := ["gA"], default_group := "gA",
       permission_level := "group" }]
    [{ chunk_id := "c2", embedding := [], success := false,
       error := some "Rate limit exceeded: slow" }]
    (fun _ => true) (fun _ => "")).2.2.2 (by decide) (by decide) (by decide)
  refine ⟨h.1.trans (by decide), h.2.1.trans (by decide),
    h.2.2.trans (by decide), h4.trans (by decide)⟩
